import Mathlib

/-!
Verification of the ReviewCraft PR-analysis pipeline.

Shallow embedding of the Python sources in `app/`:
  * `app/services/code_analyzer.py`  — per-file quality/security score calculation
  * `app/services/ai_agent.py`       — PR-level summary aggregation
  * `app/services/llm_client.py`     — LLM calls with canned degraded-mode fallback
  * `app/services/code_embeddings.py`— embeddings with zero/Jaccard fallback
  * `app/services/github_client.py`  — paginated changed-file listing
  * `app/worker/analyze_pr_task.py`  — the worker workflow over the persistent store
  * `app/models/task.py`, `app/api/pr_analysis.py` — the Task status writers

Machine floats in the source are modelled as rationals; Python `int()` and
`round()` are modelled explicitly (`pyTrunc`, `pyRoundHalfEven`).
-/

namespace ReviewCraft

/-- Python `int(q)`: truncation toward zero. -/
def pyTrunc (q : ℚ) : ℤ := if 0 ≤ q then ⌊q⌋ else ⌈q⌉

/-- Python `round(q)`: round half to even (banker's rounding).  This follows the
spec's word `round`; the source uses `int()` (`pyTrunc`) instead. -/
def pyRoundHalfEven (q : ℚ) : ℤ :=
  let f : ℤ := ⌊q⌋
  let r : ℚ := q - f
  if r < 1/2 then f
  else if 1/2 < r then f + 1
  else if Even f then f else f + 1

/-! ## `CodeAnalyzer._calculate_quality_score` (code_analyzer.py lines 254-295)

An issue dict as seen by the score calculator: only its `"severity"` key is
read, via `i.get("severity")` (`none` when the key is absent). -/

structure QIssue where
  severity : Option String
deriving DecidableEq, Repr

/-- `CodeAnalyzer._calculate_quality_score`.  The two fields the source reads
from the `quality_results` dict (`complexity_score` default 5,
`duplication_score` default 0) are passed directly as `complexity` and
`duplication`. -/
def calculateQualityScore (maintainability : ℤ) (issues : List QIssue)
    (complexity : ℚ) (duplication : ℚ) : ℚ :=
  let base_score : ℚ := maintainability
  let critical_issues : ℕ :=
    (issues.filter fun i =>
      i.severity == some "critical" || i.severity == some "high").length
  let high_issues : ℕ := (issues.filter fun i => i.severity == some "high").length
  let medium_issues : ℕ := (issues.filter fun i => i.severity == some "medium").length
  let score := base_score
  let score := score - critical_issues * 20
  let score := score - high_issues * 10
  let score := score - medium_issues * 5
  let score := if complexity > 15 then score - (complexity - 15) * 2 else score
  let score := score - (pyTrunc (duplication * 30) : ℚ)
  max (min score 100) 0

/-- The value of the score before the final clamp, written as one closed
expression.  By `quality_score_clamp` the source function is the clamp of this. -/
def rawQualityScore (m : ℤ) (issues : List QIssue) (c d : ℚ) : ℚ :=
  (m : ℚ)
    - 20 * ((issues.filter fun i =>
        i.severity == some "critical" || i.severity == some "high").length : ℚ)
    - 10 * ((issues.filter fun i => i.severity == some "high").length : ℚ)
    - 5 * ((issues.filter fun i => i.severity == some "medium").length : ℚ)
    - (if c > 15 then 2 * (c - 15) else 0)
    - (pyTrunc (d * 30) : ℚ)

lemma quality_score_clamp (m : ℤ) (issues : List QIssue) (c d : ℚ) :
    calculateQualityScore m issues c d = max (min (rawQualityScore m issues c d) 100) 0 := by
  simp only [calculateQualityScore, rawQualityScore]
  congr 2
  split_ifs <;> ring

lemma raw_append_critical (m : ℤ) (issues : List QIssue) (c d : ℚ) :
    rawQualityScore m (issues ++ [⟨some "critical"⟩]) c d =
      rawQualityScore m issues c d - 20 := by
  simp [rawQualityScore, List.filter_append, List.filter]
  ring

lemma quality_80_empty : calculateQualityScore 80 [] 5 0 = 80 := by
  simp [calculateQualityScore, List.filter, pyTrunc]
  norm_num [max_def, min_def]

lemma quality_zero_maint : calculateQualityScore 0 [] 5 0 = 0 := by
  simp [calculateQualityScore, List.filter, pyTrunc]
  norm_num [max_def, min_def]

lemma quality_zero_maint_crit : calculateQualityScore 0 [⟨some "critical"⟩] 5 0 = 0 := by
  simp [calculateQualityScore, List.filter, pyTrunc]
  norm_num [max_def, min_def]

/-- C1 counterexample: at maintainability 80, no issues, complexity 5 and
duplication 0.06 the source returns 79 (it truncates `int(0.06*30) = int(1.8) = 1`),
while the claimed formula with `round(1.8) = 2` gives 78. -/
theorem C1_counterexample :
    calculateQualityScore 80 [] 5 (3/50) = 79 ∧
      max (min ((80 : ℚ) - (pyRoundHalfEven ((3/50) * 30) : ℚ)) 100) 0 = 78 ∧
      calculateQualityScore 80 [] 5 (3/50) ≠
        max (min ((80 : ℚ) - (pyRoundHalfEven ((3/50) * 30) : ℚ)) 100) 0 := by
  have h1 : calculateQualityScore 80 [] 5 (3/50) = 79 := by
    simp [calculateQualityScore, List.filter, pyTrunc]
    norm_num [max_def, min_def]
  have h2 : max (min ((80 : ℚ) - (pyRoundHalfEven ((3/50) * 30) : ℚ)) 100) 0 = 78 := by
    norm_num [pyRoundHalfEven, max_def, min_def]
  refine ⟨h1, h2, ?_⟩
  rw [h1, h2]; norm_num

/-- C1 (amended): the file-level quality score equals maintainability minus 20
per critical-or-high issue, minus a further 10 per high issue, minus 5 per
medium issue, minus `2*(c-15)` when `c > 15`, minus `int(d*30)` (Python
truncation toward zero, not `round`), clamped to `[0, 100]`; and with
maintainability 80, no issues, complexity 5 and duplication 0 it is exactly 80. -/
theorem C1_quality_score_formula (m : ℤ) (issues : List QIssue) (c d : ℚ) :
    calculateQualityScore m issues c d =
      max (min ((m : ℚ)
        - 20 * ((issues.filter fun i =>
            i.severity == some "critical" || i.severity == some "high").length : ℚ)
        - 10 * ((issues.filter fun i => i.severity == some "high").length : ℚ)
        - 5 * ((issues.filter fun i => i.severity == some "medium").length : ℚ)
        - (if c > 15 then 2 * (c - 15) else 0)
        - (pyTrunc (d * 30) : ℚ)) 100) 0
    ∧ calculateQualityScore 80 [] 5 0 = 80 :=
  ⟨quality_score_clamp m issues c d, quality_80_empty⟩

/-- C7 counterexample: with maintainability 0 the score is already clamped at 0,
and appending a critical issue leaves it at 0 — not a strict decrease. -/
theorem C7_counterexample :
    ¬ (calculateQualityScore 0 ([] ++ [⟨some "critical"⟩]) 5 0
        < calculateQualityScore 0 [] 5 0) := by
  rw [quality_zero_maint,
    show ([] ++ [(⟨some "critical"⟩ : QIssue)]) = [⟨some "critical"⟩] from rfl,
    quality_zero_maint_crit]
  exact lt_irrefl 0

/-- C7 (amended): appending one critical-severity issue strictly decreases the
quality score, provided the original score is strictly between 0 and 100 (at the
clamp boundaries the score can stay put). -/
theorem C7_append_critical_strictly_decreases (m : ℤ) (issues : List QIssue) (c d : ℚ)
    (h0 : 0 < calculateQualityScore m issues c d)
    (h1 : calculateQualityScore m issues c d < 100) :
    calculateQualityScore m (issues ++ [⟨some "critical"⟩]) c d
      < calculateQualityScore m issues c d := by
  rw [quality_score_clamp] at h0 h1
  rw [quality_score_clamp, quality_score_clamp, raw_append_critical]
  set r := rawQualityScore m issues c d with hr
  have hr0 : 0 < r := by
    rcases lt_max_iff.mp h0 with h | h
    · exact (lt_min_iff.mp h).1
    · exact absurd h (lt_irrefl 0)
  have hr100 : r < 100 := by
    have h2 : min r 100 < 100 := (max_lt_iff.mp h1).1
    rcases min_lt_iff.mp h2 with h | h
    · exact h
    · exact absurd h (lt_irrefl (100 : ℚ))
  have hrEq : max (min r 100) 0 = r := by
    rw [min_eq_left hr100.le, max_eq_left hr0.le]
  rw [hrEq, min_eq_left (show r - 20 ≤ 100 by linarith)]
  exact max_lt (by linarith) hr0

/-- Witness for `C7_append_critical_strictly_decreases` at maintainability 80,
no issues, complexity 5, duplication 0 (score 80). -/
theorem C7_witness :
    0 < calculateQualityScore 80 [] 5 0 ∧
    calculateQualityScore 80 [] 5 0 < 100 ∧
    calculateQualityScore 80 ([] ++ [⟨some "critical"⟩]) 5 0
      < calculateQualityScore 80 [] 5 0 :=
  ⟨by rw [quality_80_empty]; norm_num,
   by rw [quality_80_empty]; norm_num,
   C7_append_critical_strictly_decreases 80 [] 5 0
     (by rw [quality_80_empty]; norm_num)
     (by rw [quality_80_empty]; norm_num)⟩

/-! ## `AIAgent.generate_summary` (ai_agent.py lines 210-302)

The aggregator inspects each element with `hasattr(analysis, "quality_score")`
and `getattr(issue, "severity", "")` / `getattr(issue, "type", "")`; an element
is modelled by the two attributes it reads: an optional quality score and an
issue list carrying `severity` and `type` strings. -/

structure SummaryIssue where
  severity : String
  type : String
deriving DecidableEq, Repr

structure SummaryFileAnalysis where
  quality_score : Option ℚ
  issues : List SummaryIssue
deriving DecidableEq, Repr

/-- The keys of the summary dict built by `generate_summary` that are consumed
elsewhere in the program (`analysis_timestamp` and `pr_metadata` omitted). -/
structure Summary where
  overall_quality : String
  overall_score : ℤ
  total_files_analyzed : ℕ
  total_issues : ℕ
  critical_issues : ℕ
  security_issues : ℕ
  recommendations : List String
deriving DecidableEq, Repr

/-- Local `quality_scores` of `generate_summary`: scores of the analyses that
have the attribute. -/
def summaryQualityScores (fas : List SummaryFileAnalysis) : List ℚ :=
  fas.filterMap (·.quality_score)

/-- All issues seen by `generate_summary`'s counting loop. -/
def summaryAllIssues (fas : List SummaryFileAnalysis) : List SummaryIssue :=
  (fas.map (·.issues)).flatten

/-- Local `critical_issues_count`: issues whose `severity == "critical"`. -/
def summaryCriticalCount (fas : List SummaryFileAnalysis) : ℕ :=
  ((summaryAllIssues fas).filter fun i => i.severity == "critical").length

/-- Local `security_issues_count`: issues whose `type.startswith("security")`. -/
def summarySecurityCount (fas : List SummaryFileAnalysis) : ℕ :=
  ((summaryAllIssues fas).filter fun i => i.type.startsWith "security").length

/-- Local `avg_quality`: `sum(quality_scores)/len(quality_scores) if
quality_scores else 75`. -/
def summaryAvgQuality (fas : List SummaryFileAnalysis) : ℚ :=
  if (summaryQualityScores fas).isEmpty then 75
  else (summaryQualityScores fas).sum / ((summaryQualityScores fas).length : ℚ)

/-- `AIAgent.generate_summary`. -/
def generateSummary (file_analyses : List SummaryFileAnalysis) (total_issues : ℕ) :
    Summary :=
  let critical_issues_count := summaryCriticalCount file_analyses
  let avg_quality := summaryAvgQuality file_analyses
  let recommendations : List String :=
    (if critical_issues_count > 0 then
      ["Address " ++ toString critical_issues_count ++
        " critical security issues immediately"] else [])
    ++ (if avg_quality < 70 then ["Consider refactoring to improve code quality"] else [])
    ++ (if file_analyses.length > 20 then
      ["Large PR - consider breaking into smaller changes"] else [])
  let recommendations :=
    if recommendations.isEmpty then
      ["Code looks good! Consider adding tests if not present"]
    else recommendations
  let overall_quality :=
    if critical_issues_count > 0 then "needs_work"
    else if avg_quality ≥ 85 then "excellent"
    else if avg_quality ≥ 75 then "good"
    else "fair"
  { overall_quality := overall_quality
    overall_score := pyTrunc avg_quality
    total_files_analyzed := file_analyses.length
    total_issues := total_issues
    critical_issues := critical_issues_count
    security_issues := summarySecurityCount file_analyses
    recommendations := recommendations }

example : summaryAvgQuality [] = 75 := by
  simp [summaryAvgQuality, summaryQualityScores]

lemma summary_empty_eval : generateSummary [] 0 =
    { overall_quality := "good"
      overall_score := 75
      total_files_analyzed := 0
      total_issues := 0
      critical_issues := 0
      security_issues := 0
      recommendations := ["Code looks good! Consider adding tests if not present"] } := by
  simp [generateSummary, summaryCriticalCount, summarySecurityCount, summaryAllIssues,
    summaryAvgQuality, summaryQualityScores]
  norm_num [pyTrunc]

/-- C5 counterexample: for two files with quality scores 79 and 80 the mean is
79.5; the source truncates (`int(79.5) = 79`) while the claimed `round` gives 80. -/
theorem C5_counterexample :
    (generateSummary [⟨some 79, []⟩, ⟨some 80, []⟩] 0).overall_score = 79 ∧
    pyRoundHalfEven (((79 : ℚ) + 80) / 2) = 80 ∧
    (generateSummary [⟨some 79, []⟩, ⟨some 80, []⟩] 0).overall_score ≠
      pyRoundHalfEven (((79 : ℚ) + 80) / 2) := by
  have h1 : (generateSummary [⟨some 79, []⟩, ⟨some 80, []⟩] 0).overall_score = 79 := by
    simp [generateSummary, summaryAvgQuality, summaryQualityScores, List.filterMap]
    norm_num [pyTrunc]
  have h2 : pyRoundHalfEven (((79 : ℚ) + 80) / 2) = 80 := by
    norm_num [pyRoundHalfEven, Int.even_iff]
  exact ⟨h1, h2, by rw [h1, h2]; norm_num⟩

/-- C5 (amended): `overall_score` is the Python `int()` truncation (not `round`)
of the mean of the per-file quality scores when at least one analysis carries a
score, and 75 otherwise; `overall_quality` is `needs_work` when the counted
critical issues exceed 0, else compares the (un-truncated) mean against the
85 / 75 thresholds. -/
theorem C5_summary_score_and_quality (fas : List SummaryFileAnalysis) (t : ℕ) :
    ((generateSummary fas t).overall_score =
      if (fas.filterMap (·.quality_score)).isEmpty then 75
      else pyTrunc ((fas.filterMap (·.quality_score)).sum /
        ((fas.filterMap (·.quality_score)).length : ℚ))) ∧
    ((generateSummary fas t).overall_quality =
      if 0 < (((fas.map (·.issues)).flatten.filter fun i => i.severity == "critical")).length
      then "needs_work"
      else if 85 ≤ summaryAvgQuality fas then "excellent"
      else if 75 ≤ summaryAvgQuality fas then "good"
      else "fair") := by
  constructor
  · rw [show (generateSummary fas t).overall_score = pyTrunc (summaryAvgQuality fas) from rfl,
      summaryAvgQuality, summaryQualityScores]
    split_ifs with h
    · norm_num [pyTrunc]
    · rfl
  · simp only [generateSummary, summaryCriticalCount, summaryAllIssues]

/-! ## `LLMClient` (llm_client.py)

`hasApiKey` models `self._client` being configured (an OpenRouter API key is
present).  The network call `chat.completions.create` is abstracted by
`ChatOutcome`: `.err e` is any exception it raises (caught by the
`except Exception` handler, which logs and falls through to the mock),
`.ok none` a falsy `message.content`, `.ok (some c)` a content string.
`json.loads` on a content string is the `parse` oracle (`none` models
`json.JSONDecodeError`). Each operation's return type is wrapped in
`Except String` so that a propagated exception would be visible as `.error`;
the source catches everything, so every branch is `.ok`. -/

inductive ChatOutcome
  | ok (content : Option String)
  | err (e : String)
deriving DecidableEq, Repr

structure SecurityIssue where
  type : String
  severity : String
  title : String
  description : String
  line : ℕ
  recommendation : Option String
deriving DecidableEq, Repr

structure QualityIssue where
  type : String
  title : String
  description : String
  line : ℕ
deriving DecidableEq, Repr

structure QualitySuggestion where
  type : String
  title : String
  description : String
  priority : Option String
deriving DecidableEq, Repr

/-- A suggestion entry inside a quality-analysis dict: the JSON-parse-failure
wrap puts the raw content string there, the mock a structured record. -/
inductive SuggestionEntry
  | text (s : String)
  | record (r : QualitySuggestion)
deriving DecidableEq, Repr

structure QualityMetrics where
  maintainability : ℚ
  readability : ℚ
  complexity : ℚ
deriving DecidableEq, Repr

structure QualityAnalysis where
  score : ℚ
  issues : List QualityIssue
  suggestions : List SuggestionEntry
  metrics : QualityMetrics
deriving DecidableEq, Repr

structure SuggestionItem where
  type : String
  priority : String
  title : String
  description : String
  line : ℕ
  exampleText : Option String
deriving DecidableEq, Repr

/-- `LLMClient._mock_quality_analysis`. -/
def mockQualityAnalysis : QualityAnalysis :=
  { score := 8,
    issues := [{ type := "warning", title := "Mock Analysis",
                 description := "AI service unavailable - showing mock results",
                 line := 1 }],
    suggestions := [SuggestionEntry.record
      { type := "info", title := "Configure AI Service",
        description := "Set up OpenRouter API key to enable real analysis",
        priority := some "high" }],
    metrics := { maintainability := 8, readability := 8, complexity := 7 } }

/-- `LLMClient._mock_security_analysis`. -/
def mockSecurityAnalysis : List SecurityIssue :=
  [{ type := "info", severity := "low", title := "Mock Security Analysis",
     description :=
       "AI service unavailable - configure OpenRouter API key for real security analysis",
     line := 1,
     recommendation := some "Set up OpenRouter API key in environment variables" }]

/-- `LLMClient._mock_suggestions`. -/
def mockSuggestions : List SuggestionItem :=
  [{ type := "info", priority := "medium", title := "Configure AI Service",
     description := "Set up OpenRouter API key to enable AI-powered code suggestions",
     line := 1,
     exampleText := some "export OPENROUTER_API_KEY=your_api_key_here" }]

/-- The wrap `analyze_code_quality` builds when the content is not valid JSON. -/
def wrappedQualityAnalysis (content : String) : QualityAnalysis :=
  { score := 15/2,
    issues := [],
    suggestions := [SuggestionEntry.text content],
    metrics := { maintainability := 8, readability := 7, complexity := 6 } }

/-- `LLMClient.analyze_code_quality`. -/
def analyzeCodeQuality (hasApiKey : Bool) (call : ChatOutcome)
    (parse : String → Option QualityAnalysis) : Except String QualityAnalysis :=
  if !hasApiKey then .ok mockQualityAnalysis
  else match call with
    | .err _ => .ok mockQualityAnalysis
    | .ok none => .ok mockQualityAnalysis
    | .ok (some content) =>
      match parse content with
      | some result => .ok result
      | none => .ok (wrappedQualityAnalysis content)

/-- `LLMClient.analyze_security`. -/
def analyzeSecurity (hasApiKey : Bool) (call : ChatOutcome)
    (parse : String → Option (List SecurityIssue)) : Except String (List SecurityIssue) :=
  if !hasApiKey then .ok mockSecurityAnalysis
  else match call with
    | .err _ => .ok mockSecurityAnalysis
    | .ok none => .ok mockSecurityAnalysis
    | .ok (some content) =>
      match parse content with
      | some result => .ok result
      | none => .ok [{ type := "info", severity := "medium", title := "Security Analysis",
                       description := content, line := 1, recommendation := none }]

/-- `LLMClient.generate_suggestions`. -/
def generateSuggestions (hasApiKey : Bool) (call : ChatOutcome)
    (parse : String → Option (List SuggestionItem)) : Except String (List SuggestionItem) :=
  if !hasApiKey then .ok mockSuggestions
  else match call with
    | .err _ => .ok mockSuggestions
    | .ok none => .ok mockSuggestions
    | .ok (some content) =>
      match parse content with
      | some result => .ok result
      | none => .ok [{ type := "improvement", priority := "medium", title := "Code Improvement",
                       description := content, line := 1, exampleText := none }]

/-- C8: with no API key configured, or when the chat-completion call raises,
each of the three analysis operations returns its canned neutral single-element
response (whose description notes that the AI service is unavailable /
unconfigured), and none of the three ever propagates an error to the caller. -/
theorem C8_llm_degraded_mode (hasApiKey : Bool) (call : ChatOutcome)
    (pq : String → Option QualityAnalysis)
    (ps : String → Option (List SecurityIssue))
    (pg : String → Option (List SuggestionItem))
    (h : hasApiKey = false ∨ ∃ e, call = ChatOutcome.err e) :
    analyzeCodeQuality hasApiKey call pq = .ok mockQualityAnalysis ∧
    analyzeSecurity hasApiKey call ps = .ok mockSecurityAnalysis ∧
    generateSuggestions hasApiKey call pg = .ok mockSuggestions ∧
    mockQualityAnalysis.issues.length = 1 ∧
    mockSecurityAnalysis.length = 1 ∧
    mockSuggestions.length = 1 ∧
    (∀ (k : Bool) (c : ChatOutcome) (p : String → Option QualityAnalysis),
      ∃ v, analyzeCodeQuality k c p = .ok v) ∧
    (∀ (k : Bool) (c : ChatOutcome) (p : String → Option (List SecurityIssue)),
      ∃ v, analyzeSecurity k c p = .ok v) ∧
    (∀ (k : Bool) (c : ChatOutcome) (p : String → Option (List SuggestionItem)),
      ∃ v, generateSuggestions k c p = .ok v) := by
  have noRaiseQ : ∀ (k : Bool) (c : ChatOutcome) (p : String → Option QualityAnalysis),
      ∃ v, analyzeCodeQuality k c p = .ok v := by
    intro k c p
    cases k <;> rcases c with ⟨_ | c⟩ | e <;> simp [analyzeCodeQuality]
    cases p c <;> simp
  have noRaiseS : ∀ (k : Bool) (c : ChatOutcome) (p : String → Option (List SecurityIssue)),
      ∃ v, analyzeSecurity k c p = .ok v := by
    intro k c p
    cases k <;> rcases c with ⟨_ | c⟩ | e <;> simp [analyzeSecurity]
    cases p c <;> simp
  have noRaiseG : ∀ (k : Bool) (c : ChatOutcome) (p : String → Option (List SuggestionItem)),
      ∃ v, generateSuggestions k c p = .ok v := by
    intro k c p
    cases k <;> rcases c with ⟨_ | c⟩ | e <;> simp [generateSuggestions]
    cases p c <;> simp
  refine ⟨?_, ?_, ?_, rfl, rfl, rfl, noRaiseQ, noRaiseS, noRaiseG⟩ <;>
    rcases h with h | ⟨e, h⟩ <;>
      subst h <;>
        first
          | rfl
          | (cases hasApiKey <;> rfl)

/-- Witness for `C8_llm_degraded_mode`: no API key, call not attempted. -/
theorem C8_llm_degraded_mode_witness :
    analyzeCodeQuality false (.ok none) (fun _ => none) = .ok mockQualityAnalysis ∧
    analyzeSecurity false (.ok none) (fun _ => none) = .ok mockSecurityAnalysis ∧
    generateSuggestions false (.ok none) (fun _ => none) = .ok mockSuggestions :=
  ⟨(C8_llm_degraded_mode false (.ok none) (fun _ => none) (fun _ => none) (fun _ => none)
      (Or.inl rfl)).1,
   (C8_llm_degraded_mode false (.ok none) (fun _ => none) (fun _ => none) (fun _ => none)
      (Or.inl rfl)).2.1,
   (C8_llm_degraded_mode false (.ok none) (fun _ => none) (fun _ => none) (fun _ => none)
      (Or.inl rfl)).2.2.1⟩

/-! ## `CodeEmbeddingsService` (code_embeddings.py)

The sentence-transformer model is abstracted by `EmbModel`: `enc` is
`self._model.encode` on the preprocessed text (`.error` models an exception in
the encode call), `dim` is `get_sentence_embedding_dimension()` (`none` when it
returns `None`), and `cos` is the numpy expression
`np.dot(u,v)/(np.linalg.norm(u)*np.linalg.norm(v))` (irrational in general,
hence abstract).  A service whose model failed to load at startup is
`(none : Option EmbModel)`. -/

structure EmbModel where
  enc : String → Except String (List ℚ)
  dim : Option ℕ
  cos : List ℚ → List ℚ → ℚ

/-- `CodeEmbeddingsService.get_embedding_dimension`. -/
def getEmbeddingDimension : Option EmbModel → Option ℕ
  | none => some 384
  | some m => m.dim

/-! Python's string primitives (`split`, `strip`, `lower`, `startswith`,
`join`), modelled on character lists so that they evaluate structurally. -/

/-- Split a character list at every character satisfying `p`, keeping empty
segments (the behaviour of Python's `split(sep)` for a one-character `sep`). -/
def splitCharsWhen (p : Char → Bool) : List Char → List (List Char)
  | [] => [[]]
  | ch :: rest =>
    match splitCharsWhen p rest with
    | [] => [[]]
    | seg :: segs => if p ch then [] :: seg :: segs else (ch :: seg) :: segs

/-- Python `s.split("\n")`. -/
def pySplitLines (s : String) : List String :=
  (splitCharsWhen (fun c => c == '\n') s.data).map String.mk

/-- Python `s.split()` (split on whitespace runs, discarding empty fields). -/
def pySplitWs (s : String) : List String :=
  ((splitCharsWhen Char.isWhitespace s.data).filter (fun w => !w.isEmpty)).map String.mk

/-- Python `s.strip()`. -/
def pyStrip (s : String) : String :=
  String.mk (((s.data.dropWhile Char.isWhitespace).reverse.dropWhile
    Char.isWhitespace).reverse)

/-- Python `s.lower()` (ASCII range, which is all the source compares). -/
def pyLower (s : String) : String := String.mk (s.data.map Char.toLower)

/-- Python `s.startswith(p)`. -/
def pyStartsWith (s p : String) : Bool := p.data.isPrefixOf s.data

/-- Python `sep.join(parts)`. -/
def pyJoin (sep : String) (parts : List String) : String :=
  String.mk (go (parts.map String.data))
where
  go : List (List Char) → List Char
    | [] => []
    | [x] => x
    | x :: xs => x ++ sep.data ++ go xs

/-- `CodeEmbeddingsService._preprocess_code`. -/
def preprocessCode (code : String) : String :=
  let lines := ((pySplitLines code).map pyStrip).filter (fun l => l != "")
  let processed := pyJoin " " lines
  if processed.data.length > 512 then String.mk (processed.data.take 512) else processed

/-- `CodeEmbeddingsService.encode_code` (with `normalize=True` folded into
`enc`). -/
def encodeCode (model : Option EmbModel) (code : String) : List ℚ :=
  match model with
  | none => List.replicate 384 0
  | some m =>
    match m.enc (preprocessCode code) with
    | .ok v => v
    | .error _ => List.replicate ((getEmbeddingDimension (some m)).getD 384) 0

/-- The word set of `_simple_similarity`: `set(code.lower().split())`. -/
def pyWordSet (s : String) : List String := (pySplitWs (pyLower s)).dedup

/-- `CodeEmbeddingsService._simple_similarity` (Jaccard similarity on
lower-cased word sets). -/
def simpleSimilarity (code1 code2 : String) : ℚ :=
  let words1 := pyWordSet code1
  let words2 := pyWordSet code2
  if words1.isEmpty && words2.isEmpty then 1
  else
    let intersection := (words1.filter (fun w => words2.contains w)).length
    let union := (words1 ++ words2.filter (fun w => !words1.contains w)).length
    if union > 0 then (intersection : ℚ) / (union : ℚ) else 0

/-- `CodeEmbeddingsService.calculate_similarity`. -/
def calculateSimilarity (model : Option EmbModel) (code1 code2 : String)
    (useEmbeddings : Bool) : ℚ :=
  match model, useEmbeddings with
  | none, _ => simpleSimilarity code1 code2
  | some _, false => simpleSimilarity code1 code2
  | some m, true =>
    let embedding1 := encodeCode (some m) code1
    let embedding2 := encodeCode (some m) code2
    max 0 (min 1 (m.cos embedding1 embedding2))

/-- The definition-like prefixes `_extract_code_blocks` starts a new block on. -/
def blockPrefixes : List String :=
  ["def ", "class ", "function ", "const ", "let ", "var "]

/-- `CodeEmbeddingsService._extract_code_blocks`. -/
def extractCodeBlocks (fileContent : String) : List String :=
  let step := fun (acc : List String × List String) (line : String) =>
    let stripped := pyStrip line
    let isStart := blockPrefixes.any (fun p => pyStartsWith stripped p)
    let acc :=
      if isStart && !acc.2.isEmpty then (acc.1 ++ [pyJoin "\n" acc.2], [])
      else acc
    if stripped != "" then (acc.1, acc.2 ++ [line]) else acc
  let r := (pySplitLines fileContent).foldl step ([], [])
  if !r.2.isEmpty then r.1 ++ [pyJoin "\n" r.2] else r.1

/-- `np.dot` on two (equal-length) vectors. -/
def dotProduct (u v : List ℚ) : ℚ := ((u.zip v).map fun p => p.1 * p.2).sum

/-- Insertion step of the descending sort by similarity score
(`duplicates.sort(key=..., reverse=True)`). -/
def insertBySimDesc (x : ℕ × ℕ × ℚ) : List (ℕ × ℕ × ℚ) → List (ℕ × ℕ × ℚ)
  | [] => [x]
  | y :: ys => if x.2.2 > y.2.2 then x :: y :: ys else y :: insertBySimDesc x ys

def sortBySimDesc (l : List (ℕ × ℕ × ℚ)) : List (ℕ × ℕ × ℚ) :=
  l.foldr insertBySimDesc []

/-- `CodeEmbeddingsService.detect_code_duplicates` on the `content` strings of
the code pieces. -/
def detectCodeDuplicates (model : Option EmbModel) (pieces : List String)
    (threshold : ℚ) : List (ℕ × ℕ × ℚ) :=
  match model with
  | none => []
  | some m =>
    if pieces.length < 2 then []
    else
      let embeddings := pieces.map (fun c => encodeCode (some m) c)
      let n := embeddings.length
      let duplicates := (List.range n).flatMap (fun i =>
        ((List.range n).drop (i + 1)).filterMap (fun j =>
          let similarity := dotProduct (embeddings.getD i []) (embeddings.getD j [])
          if similarity ≥ threshold then some (i, j, similarity) else none))
      sortBySimDesc duplicates

/-- The metrics dict returned by `analyze_code_similarity_metrics`
(`duplicate_pairs`, present only in the non-degenerate branch, is not consumed
by the pipeline and is omitted). -/
structure SimilarityMetrics where
  total_blocks : ℕ
  duplicates_found : ℕ
  max_similarity : ℚ
  avg_similarity : ℚ
  duplication_score : ℚ
deriving DecidableEq, Repr

/-- `CodeEmbeddingsService.analyze_code_similarity_metrics` with the default
(built-in) block extractor. -/
def analyzeCodeSimilarityMetrics (model : Option EmbModel) (fileContent : String) :
    SimilarityMetrics :=
  let code_blocks := extractCodeBlocks fileContent
  if code_blocks.length < 2 then
    { total_blocks := code_blocks.length, duplicates_found := 0,
      max_similarity := 0, avg_similarity := 0, duplication_score := 0 }
  else
    let duplicates := detectCodeDuplicates model code_blocks (7/10)
    let similarities := duplicates.map (·.2.2)
    let max_similarity :=
      if duplicates.isEmpty then 0 else similarities.foldl max (similarities.headD 0)
    let avg_similarity :=
      if duplicates.isEmpty then 0
      else similarities.sum / (similarities.length : ℚ)
    let duplication_score := (duplicates.length : ℚ) /
      max 1 ((code_blocks.length : ℚ) * ((code_blocks.length : ℚ) - 1) / 2)
    { total_blocks := code_blocks.length, duplicates_found := duplicates.length,
      max_similarity := max_similarity, avg_similarity := avg_similarity,
      duplication_score := min 1 duplication_score }

/-- C9 counterexample: with the model unavailable, `calculate_similarity` falls
back to Jaccard word similarity — two identical one-word strings score 1.0, not
0.0 — and on a one-line file the metrics report `total_blocks = 1`, so the
metrics are not all zero either. -/
theorem C9_counterexample :
    calculateSimilarity none "a" "a" true = 1 ∧
    (analyzeCodeSimilarityMetrics none "x").total_blocks = 1 ∧
    ¬ (calculateSimilarity none "a" "a" true = 0 ∧
       (analyzeCodeSimilarityMetrics none "x").total_blocks = 0) := by
  have hw : pyWordSet "a" = ["a"] := by rfl
  have h1 : calculateSimilarity none "a" "a" true = 1 := by
    simp only [calculateSimilarity, simpleSimilarity, hw]
    norm_num
  have h2 : (analyzeCodeSimilarityMetrics none "x").total_blocks = 1 := by
    have hb : extractCodeBlocks "x" = ["x"] := by rfl
    simp [analyzeCodeSimilarityMetrics, hb]
  refine ⟨h1, h2, ?_⟩
  rintro ⟨c1, -⟩
  rw [h1] at c1
  norm_num at c1

/-- C9 (amended): if the embeddings model fails to load at startup, then for
every input `encode_code` returns the 384-dimensional zero vector,
`calculate_similarity` falls back to the Jaccard word-set similarity (it is not
identically 0.0), and `analyze_code_similarity_metrics` reports zero duplicates
and zero similarity/duplication scores while `total_blocks` still counts the
extracted blocks; all three are total functions, so the pipeline never aborts
because embeddings are unavailable. -/
theorem C9_model_load_failure (code c1 c2 f : String) :
    encodeCode none code = List.replicate 384 0 ∧
    calculateSimilarity none c1 c2 true = simpleSimilarity c1 c2 ∧
    (analyzeCodeSimilarityMetrics none f).duplicates_found = 0 ∧
    (analyzeCodeSimilarityMetrics none f).max_similarity = 0 ∧
    (analyzeCodeSimilarityMetrics none f).avg_similarity = 0 ∧
    (analyzeCodeSimilarityMetrics none f).duplication_score = 0 ∧
    (analyzeCodeSimilarityMetrics none f).total_blocks = (extractCodeBlocks f).length := by
  refine ⟨rfl, rfl, ?_⟩
  have hdet : detectCodeDuplicates none (extractCodeBlocks f) (7/10) = [] := rfl
  simp only [analyzeCodeSimilarityMetrics, hdet, List.isEmpty_nil, List.length_nil,
    List.map_nil, if_true, Nat.cast_zero, zero_div]
  split_ifs with h
  · exact ⟨rfl, rfl, rfl, rfl, rfl⟩
  · exact ⟨rfl, rfl, rfl, min_eq_right (by norm_num), rfl⟩

/-! ## `GitHubClient.get_pr_files` (github_client.py lines 202-256)

`pages p` is the JSON array the code host returns for the request with params
`{"page": p, "per_page": 100}`.  The result records the accumulated file list,
how many page requests were made, and whether the pagination-limit warning
(`"Reached maximum file pagination limit"`) was logged. -/

structure PRFilesResult (α : Type) where
  all_files : List α
  pages_fetched : ℕ
  logged_truncation : Bool
deriving Repr

/-- The `while True` pagination loop of `get_pr_files` (`per_page = 100`,
safety limit `page > 50`). -/
def getPrFilesLoop {α : Type} (pages : ℕ → List α) (page : ℕ) (acc : List α)
    (fetched : ℕ) : PRFilesResult α :=
  let files_data := pages page
  if files_data.isEmpty then ⟨acc, fetched + 1, false⟩
  else
    let acc := acc ++ files_data
    if files_data.length < 100 then ⟨acc, fetched + 1, false⟩
    else if page + 1 > 50 then ⟨acc, fetched + 1, true⟩
    else getPrFilesLoop pages (page + 1) acc (fetched + 1)
termination_by 51 - page
decreasing_by omega

/-- `GitHubClient.get_pr_files`: pagination starts at `page = 1`. -/
def getPrFiles {α : Type} (pages : ℕ → List α) : PRFilesResult α :=
  getPrFilesLoop pages 1 [] 0

lemma getPrFilesLoop_bounds {α : Type} (pages : ℕ → List α)
    (h100 : ∀ p, (pages p).length ≤ 100) :
    ∀ (k page : ℕ) (acc : List α) (fetched : ℕ), 51 - page = k → 1 ≤ page → page ≤ 50 →
      (getPrFilesLoop pages page acc fetched).pages_fetched ≤ fetched + k ∧
      (getPrFilesLoop pages page acc fetched).all_files.length ≤ acc.length + k * 100 := by
  intro k
  induction k with
  | zero => intro page acc fetched hk h1 h50; omega
  | succ k ih =>
    intro page acc fetched hk h1 h50
    rw [getPrFilesLoop]
    split_ifs with hempty hlt hcap
    · exact ⟨by simp, by simp⟩
    · refine ⟨by simp, ?_⟩
      have := h100 page
      simp only [List.length_append]
      omega
    · refine ⟨by simp, ?_⟩
      have := h100 page
      simp only [List.length_append]
      omega
    · have hrec := ih (page + 1) (acc ++ pages page) (fetched + 1) (by omega)
        (by omega) (by omega)
      refine ⟨by simp [hrec.1]; omega, ?_⟩
      have := h100 page
      rcases hrec with ⟨hf, ha⟩
      simp only [List.length_append] at ha ⊢
      omega

lemma getPrFilesLoop_trunc {α : Type} (pages : ℕ → List α)
    (hfull : ∀ p, 1 ≤ p → p ≤ 50 → (pages p).length = 100) :
    ∀ (k page : ℕ) (acc : List α) (fetched : ℕ), 51 - page = k → 1 ≤ page → page ≤ 50 →
      (getPrFilesLoop pages page acc fetched).logged_truncation = true := by
  intro k
  induction k with
  | zero => intro page acc fetched hk h1 h50; omega
  | succ k ih =>
    intro page acc fetched hk h1 h50
    have hlen : (pages page).length = 100 := hfull page h1 h50
    rw [getPrFilesLoop]
    split_ifs with hempty hlt hcap
    · exact absurd (List.isEmpty_iff.mp hempty) (by intro h; rw [h] at hlen; simp at hlen)
    · omega
    · rfl
    · exact ih (page + 1) (acc ++ pages page) (fetched + 1) (by omega) (by omega) (by omega)

/-- C10: for every sequence of page responses, `get_pr_files` makes at most 50
page requests (each with `per_page = 100`); hence, when the host honours the
requested page size (every response holds at most 100 records), at most 5000
changed-file records are returned; and if every page up to the 50th is full,
the 50-page ceiling is hit and the truncation warning is logged before
returning. -/
theorem C10_get_pr_files_bounded {α : Type} (pages : ℕ → List α)
    (h100 : ∀ p, (pages p).length ≤ 100) :
    (getPrFiles pages).pages_fetched ≤ 50 ∧
    (getPrFiles pages).all_files.length ≤ 5000 ∧
    ((∀ p, 1 ≤ p → p ≤ 50 → (pages p).length = 100) →
      (getPrFiles pages).logged_truncation = true) := by
  have hb := getPrFilesLoop_bounds pages h100 50 1 [] 0 (by omega) (by omega) (by omega)
  refine ⟨by simpa [getPrFiles] using hb.1, ?_, ?_⟩
  · have := hb.2
    simpa [getPrFiles] using this
  · intro hfull
    exact getPrFilesLoop_trunc pages hfull 50 1 [] 0 (by omega) (by omega) (by omega)

/-- Witness for `C10_get_pr_files_bounded`: every page is exactly 100 dummy
records; 50 pages are fetched, 5000 records returned, truncation logged. -/
theorem C10_witness :
    (∀ p : ℕ, ((fun _ : ℕ => List.replicate 100 ()) p).length ≤ 100) ∧
    (getPrFiles (fun _ : ℕ => List.replicate 100 ())).pages_fetched ≤ 50 ∧
    (getPrFiles (fun _ : ℕ => List.replicate 100 ())).all_files.length ≤ 5000 ∧
    (getPrFiles (fun _ : ℕ => List.replicate 100 ())).logged_truncation = true := by
  have h100 : ∀ p : ℕ, ((fun _ : ℕ => List.replicate 100 ()) p).length ≤ 100 := by
    intro p; simp
  have h := C10_get_pr_files_bounded (fun _ : ℕ => List.replicate 100 ()) h100
  exact ⟨h100, h.1, h.2.1, h.2.2 (by intro p _ _; simp)⟩

/-! ## The persistent store and the worker
(`app/worker/analyze_pr_task.py`, `app/models/task.py`, `app/api/pr_analysis.py`)

Timestamps (`datetime.now()`) are abstracted as naturals supplied by the
caller.  Per-file analysis (`CodeAnalyzer.analyze_file`, which consults the
LLM and the embeddings service) is a stage boundary: each changed file carries
the outcome the analyzer would produce for it — `none` when `analyze_file`
raises (the worker logs a warning and skips the file), or the analysis data
with its normalized `Issue` children (severity strings are the
`IssueSeverity` str-enum values produced by the normalization in
`analyze_file`). -/

inductive WTaskStatus
  | pending | processing | completed | failed | cancelled | retry
deriving DecidableEq, Repr

/-- `Task.is_completed` / the spec's terminal set. -/
def WTaskStatus.isTerminal : WTaskStatus → Bool
  | .completed => true
  | .failed => true
  | .cancelled => true
  | _ => false

inductive WAnalysisStatus
  | pending | inProgress | completed | failed
deriving DecidableEq, Repr

/-- A row of the `tasks` table (the columns the modelled operations touch). -/
structure TaskRow where
  id : String
  status : WTaskStatus
  progress : ℕ
  started_at : Option ℕ
  completed_at : Option ℕ
  error_message : Option String
  celery_task_id : Option String
  retry_count : ℕ
  max_retries : ℕ
deriving DecidableEq, Repr

/-- An `Issue` child produced by `analyze_file` for one file. -/
structure IssueData where
  severity : String
  title : String
deriving DecidableEq, Repr

/-- What `analyze_file` returns for one file (the parts the worker uses). -/
structure FileAnalysisData where
  file_path : String
  issues : List IssueData
deriving DecidableEq, Repr

/-- A persisted row of the `file_analyses` table with its cascade-persisted
`Issue` children (`session.add(file_analysis)` persists both). -/
structure FileAnalysisRow where
  pr_analysis_id : ℕ
  file_path : String
  issues : List IssueData
deriving DecidableEq, Repr

/-- A row of the `pr_analyses` table (the columns the worker writes). -/
structure PRAnalysisRow where
  id : ℕ
  task_id : String
  status : WAnalysisStatus
  total_files_analyzed : ℕ
  total_issues_found : ℕ
  critical_issues : ℕ
  quality_score : Option ℚ
  summary : Option String
  recommendations : List String
  analysis_completed_at : Option ℕ
deriving DecidableEq, Repr

/-- The persistent store: the three tables the worker touches plus the id
sequence for `pr_analyses`. -/
structure DB where
  tasks : List TaskRow
  prAnalyses : List PRAnalysisRow
  fileAnalyses : List FileAnalysisRow
  nextPrId : ℕ
deriving DecidableEq, Repr

/-- `UPDATE tasks SET ... WHERE id = tid`. -/
def updateTask (db : DB) (tid : String) (f : TaskRow → TaskRow) : DB :=
  { db with tasks := db.tasks.map (fun t => if t.id == tid then f t else t) }

/-- `UPDATE pr_analyses SET ... WHERE id = pid`. -/
def updatePr (db : DB) (pid : ℕ) (f : PRAnalysisRow → PRAnalysisRow) : DB :=
  { db with prAnalyses := db.prAnalyses.map (fun p => if p.id == pid then f p else p) }

/-- `_update_task_failed` (analyze_pr_task.py lines 391-408). -/
def updateTaskFailed (db : DB) (tid : String) (msg : String) (now : ℕ) : DB :=
  updateTask db tid (fun t =>
    { t with
      status := .failed, error_message := some msg, completed_at := some now })

/-- One changed file as the worker sees it: its name and the outcome of
`analyze_file` on it. -/
structure FileOutcome where
  filename : String
  result : Option FileAnalysisData
deriving DecidableEq, Repr

/-- The worker's external interactions for one run: the combined outcome of
`get_pull_request`/`get_pr_files` (an exception in either aborts the run), and
whether `generate_summary` raises. -/
structure WorkerInput where
  fetch : Except String (List FileOutcome)
  summaryFails : Bool
deriving Repr

/-- The synthetic summary used when `generate_summary` raises
(analyze_pr_task.py lines 308-312).  The dict has no `overall_score` key, so
`summary.get("overall_score", 75)` yields 75, encoded here directly; the
unused counters are 0. -/
def fallbackSummary : Summary :=
  { overall_quality := "unknown", overall_score := 75, total_files_analyzed := 0,
    total_issues := 0, critical_issues := 0, security_issues := 0,
    recommendations := ["Analysis summary generation failed"] }

/-- What `generate_summary` observes of a persisted-model `FileAnalysis`
object: the ORM class defines no `quality_score` attribute, so
`hasattr(analysis, "quality_score")` is `False`, and `getattr(issue, "type",
"")` is `""` because the `Issue` model names its column `issue_type`. -/
def summaryViewOfFile (fa : FileAnalysisData) : SummaryFileAnalysis :=
  { quality_score := none,
    issues := fa.issues.map (fun i => { severity := i.severity, type := "" }) }

/-- `_analyze_pr_async` (analyze_pr_task.py lines 155-388). -/
def analyzePrAsync (db : DB) (task_id : String) (inp : WorkerInput) (now : ℕ) :
    DB × Except String Unit :=
  match inp.fetch with
  | .error e =>
    (updateTaskFailed db task_id ("Failed to fetch PR data: " ++ e) now,
     .error ("Failed to fetch PR data: " ++ e))
  | .ok files_data =>
    let db := updateTask db task_id (fun t =>
      { t with
        status := .processing, started_at := some now })
    let prId := db.nextPrId
    let pr : PRAnalysisRow :=
      { id := prId, task_id := task_id, status := .inProgress,
        total_files_analyzed := files_data.length, total_issues_found := 0,
        critical_issues := 0, quality_score := none, summary := none,
        recommendations := [], analysis_completed_at := none }
    let db := { db with prAnalyses := db.prAnalyses ++ [pr], nextPrId := prId + 1 }
    let file_analyses := files_data.filterMap (fun f => f.result)
    let total_issues := (file_analyses.map (fun fa => fa.issues.length)).sum
    let summary :=
      if inp.summaryFails then fallbackSummary
      else generateSummary (file_analyses.map summaryViewOfFile) total_issues
    let critical_issues :=
      ((file_analyses.map (fun fa => fa.issues)).flatten.filter
        (fun i => pyLower i.severity == "critical")).length
    let db := updatePr db prId (fun p =>
      { p with
        status := .completed, analysis_completed_at := some now,
        total_issues_found := total_issues, critical_issues := critical_issues,
        summary := some summary.overall_quality,
        quality_score := some (summary.overall_score : ℚ),
        recommendations := summary.recommendations })
    let newFileRows := file_analyses.map (fun fa =>
      ({ pr_analysis_id := prId, file_path := fa.file_path,
         issues := fa.issues } : FileAnalysisRow))
    let db := { db with fileAnalyses := db.fileAnalyses ++ newFileRows }
    let db := updateTask db task_id (fun t =>
      { t with
        status := .completed, completed_at := some now })
    (db, .ok ())

/-- `analyze_pr_task` (the Celery task wrapper): an exception from the async
workflow is logged, the task is marked failed again via `_update_task_failed`,
and `TaskFailedError` is re-raised. -/
def analyzePrTask (db : DB) (task_id : String) (inp : WorkerInput) (now : ℕ) :
    DB × Except String Unit :=
  match analyzePrAsync db task_id inp now with
  | (db2, .ok _) => (db2, .ok ())
  | (db2, .error e) => (updateTaskFailed db2 task_id e now, .error e)

/-- A pending task freshly inserted by the submission endpoint. -/
def task0 : TaskRow :=
  { id := "t1", status := .pending, progress := 0, started_at := none,
    completed_at := none, error_message := none, celery_task_id := none,
    retry_count := 0, max_retries := 3 }

/-- A store holding only `task0`. -/
def db0 : DB := { tasks := [task0], prAnalyses := [], fileAnalyses := [], nextPrId := 1 }

/-- Fetch succeeds with an empty changed-file list; summary generation works. -/
def inpEmpty : WorkerInput := { fetch := .ok [], summaryFails := false }

/-- Fetch succeeds with one file whose analysis raises. -/
def inpOneFail : WorkerInput :=
  { fetch := .ok [{ filename := "a.py", result := none }], summaryFails := false }

lemma filter_length_map_congr {α : Type} (l : List α) (g : α → α) (p : α → Bool)
    (hp : ∀ x ∈ l, p (g x) = p x) :
    ((l.map g).filter p).length = (l.filter p).length := by
  induction l with
  | nil => rfl
  | cons x xs ih =>
    simp only [List.map_cons, List.filter_cons, hp x (List.mem_cons_self x xs)]
    cases hpx : p x <;>
      simp [hpx, ih (fun y hy => hp y (List.mem_cons_of_mem x hy))]

lemma map_update_eq_self {α : Type} (l : List α) (g : α → α) (cond : α → Bool)
    (h : ∀ x ∈ l, cond x = false) :
    l.map (fun x => if cond x then g x else x) = l := by
  induction l with
  | nil => rfl
  | cons x xs ih =>
    simp [h x (List.mem_cons_self x xs),
      ih (fun y hy => h y (List.mem_cons_of_mem x hy))]

lemma filterMap_length_of_all_isSome {α β : Type} (l : List α) (f : α → Option β)
    (h : ∀ x ∈ l, (f x).isSome) : (l.filterMap f).length = l.length := by
  induction l with
  | nil => rfl
  | cons x xs ih =>
    rcases Option.isSome_iff_exists.mp (h x (List.mem_cons_self x xs)) with ⟨b, hb⟩
    simp [List.filterMap_cons, hb, ih (fun y hy => h y (List.mem_cons_of_mem x hy))]

/-- One successful delivery appends exactly one `PRAnalysis` row for the task:
the run's filtered row count grows by one. -/
lemma run_adds_one_pr_row (db : DB) (tid : String) (inp : WorkerInput)
    (files : List FileOutcome) (h : inp.fetch = .ok files) (n : ℕ) :
    ((analyzePrTask db tid inp n).1.prAnalyses.filter
      (fun p => p.task_id == tid)).length =
    (db.prAnalyses.filter (fun p => p.task_id == tid)).length + 1 := by
  simp only [analyzePrTask, analyzePrAsync, h, updateTask, updatePr, updateTaskFailed]
  rw [List.map_append, List.filter_append, List.length_append]
  rw [filter_length_map_congr _ _ _ (by intro x hx; split_ifs <;> rfl)]
  simp

/-- One successful delivery appends exactly the successfully analyzed files as
`FileAnalysis` rows (with their cascade-persisted issues), keyed by the fresh
`PRAnalysis` id. -/
lemma run_appends_file_rows (db : DB) (tid : String) (inp : WorkerInput)
    (files : List FileOutcome) (h : inp.fetch = .ok files) (n : ℕ) :
    (analyzePrTask db tid inp n).1.fileAnalyses =
      db.fileAnalyses ++ (files.filterMap (fun f => f.result)).map (fun fa =>
        ({ pr_analysis_id := db.nextPrId, file_path := fa.file_path,
           issues := fa.issues } : FileAnalysisRow)) := by
  simp only [analyzePrTask, analyzePrAsync, h, updateTask, updatePr, updateTaskFailed]

/-- C2 counterexample: delivering the same task id twice (empty PR, canned
responses) leaves TWO `PRAnalysis` rows for that task — the workflow performs
no idempotency check — refuting "exactly one PRAnalysis row". -/
theorem C2_counterexample :
    ((((analyzePrTask (analyzePrTask db0 "t1" inpEmpty 0).1 "t1" inpEmpty 1).1.prAnalyses.filter
      (fun p => p.task_id == "t1")).length) = 2) ∧
    ¬ ((((analyzePrTask (analyzePrTask db0 "t1" inpEmpty 0).1 "t1" inpEmpty 1).1.prAnalyses.filter
      (fun p => p.task_id == "t1")).length) = 1) := by
  constructor <;> decide

/-- C2 (amended): re-delivery duplicates rows — running the workflow twice with
the same task id inserts two `PRAnalysis` rows for that task (one per
delivery), and the per-delivery child `FileAnalysis`/`Issue` rows are inserted
again, doubling them; each run in isolation adds the same counters as a single
delivery. -/
theorem C2_redelivery_duplicates (db : DB) (tid : String) (inp : WorkerInput)
    (files : List FileOutcome) (h : inp.fetch = .ok files) (n1 n2 : ℕ) :
    ((analyzePrTask (analyzePrTask db tid inp n1).1 tid inp n2).1.prAnalyses.filter
      (fun p => p.task_id == tid)).length =
      (db.prAnalyses.filter (fun p => p.task_id == tid)).length + 2 ∧
    (analyzePrTask (analyzePrTask db tid inp n1).1 tid inp n2).1.fileAnalyses.length =
      db.fileAnalyses.length + 2 * (files.filterMap (fun f => f.result)).length := by
  have r1p := run_adds_one_pr_row db tid inp files h n1
  have r2p := run_adds_one_pr_row (analyzePrTask db tid inp n1).1 tid inp files h n2
  have r1f := run_appends_file_rows db tid inp files h n1
  have r2f := run_appends_file_rows (analyzePrTask db tid inp n1).1 tid inp files h n2
  constructor
  · rw [r2p, r1p]
  · rw [r2f, List.length_append, r1f, List.length_append, List.length_map,
      List.length_map]
    ring

/-- Witness for `C2_redelivery_duplicates` on the one-task store with an empty
changed-file list. -/
theorem C2_redelivery_witness :
    inpEmpty.fetch = Except.ok [] ∧
    ((analyzePrTask (analyzePrTask db0 "t1" inpEmpty 0).1 "t1" inpEmpty 1).1.prAnalyses.filter
      (fun p => p.task_id == "t1")).length =
      (db0.prAnalyses.filter (fun p => p.task_id == "t1")).length + 2 :=
  ⟨rfl, (C2_redelivery_duplicates db0 "t1" inpEmpty [] rfl 0 1).1⟩

/-! ## The Task status writers (C3)

Every operation of the system that writes `Task.status`, modelled from
`api/pr_analysis.py` (the submission endpoint), `analyze_pr_task.py` (the
worker's updates) and the `Task` model methods (`task.py`). -/

inductive TaskOp
  /-- Worker step 3: mark processing, set `started_at`. -/
  | workerMarkProcessing (now : ℕ)
  /-- Worker step 6: mark completed, set `completed_at`. -/
  | workerMarkCompleted (now : ℕ)
  /-- `_update_task_failed`: failed with `error_message` and `completed_at`. -/
  | workerUpdateFailed (msg : String) (now : ℕ)
  /-- `analyze_pr` after a successful Celery submission (lines 150-153). -/
  | apiSubmitQueued (cid : String)
  /-- `analyze_pr` when Celery submission raises (lines 159-166): failed with
  `error_message`, `completed_at` untouched. -/
  | apiSubmitQueueFailure (msg : String)
  /-- `Task.mark_started`. -/
  | modelMarkStarted (now : ℕ)
  /-- `Task.mark_completed`. -/
  | modelMarkCompleted (now : ℕ)
  /-- `Task.mark_failed`. -/
  | modelMarkFailed (msg : String) (now : ℕ)
  /-- `Task.increment_retry`: `retry` while within budget, else `failed`
  (without touching `completed_at`). -/
  | modelIncrementRetry
deriving DecidableEq, Repr

def applyTaskOp : TaskOp → TaskRow → TaskRow
  | .workerMarkProcessing now, t =>
    { t with status := .processing, started_at := some now }
  | .workerMarkCompleted now, t =>
    { t with status := .completed, completed_at := some now }
  | .workerUpdateFailed msg now, t =>
    { t with status := .failed, error_message := some msg, completed_at := some now }
  | .apiSubmitQueued cid, t =>
    { t with celery_task_id := some cid, status := .pending }
  | .apiSubmitQueueFailure msg, t =>
    { t with status := .failed, error_message := some ("Failed to submit task: " ++ msg) }
  | .modelMarkStarted now, t =>
    { t with status := .processing, started_at := some now, progress := 0 }
  | .modelMarkCompleted now, t =>
    { t with status := .completed, completed_at := some now, progress := 100 }
  | .modelMarkFailed msg now, t =>
    { t with status := .failed, completed_at := some now, error_message := some msg }
  | .modelIncrementRetry, t =>
    if t.retry_count + 1 ≤ t.max_retries then
      { t with retry_count := t.retry_count + 1, status := .retry }
    else
      { t with retry_count := t.retry_count + 1, status := .failed }

/-- C3 counterexample: two reachable writers leave a terminal (`failed`) status
with `completed_at` still null — the submission endpoint's queue-failure path,
and `increment_retry` on exhausted retries. -/
theorem C3_counterexample :
    ((applyTaskOp (.apiSubmitQueueFailure "boom") task0).status.isTerminal = true ∧
     (applyTaskOp (.apiSubmitQueueFailure "boom") task0).completed_at = none) ∧
    ((applyTaskOp .modelIncrementRetry
        { task0 with retry_count := 3, max_retries := 3 }).status.isTerminal = true ∧
     (applyTaskOp .modelIncrementRetry
        { task0 with retry_count := 3, max_retries := 3 }).completed_at = none) := by
  decide

/-- C3 (amended): every status-writing operation, except the submission
endpoint's queue-failure path and `Task.increment_retry` on exhausted retries,
sets `completed_at` to a non-null timestamp whenever the status it writes is
terminal; the worker's terminal writes (completed, and failed via
`_update_task_failed`) always set it. -/
theorem C3_terminal_implies_completed_at (t : TaskRow) (op : TaskOp)
    (hq : ∀ msg, op ≠ TaskOp.apiSubmitQueueFailure msg)
    (hr : op ≠ TaskOp.modelIncrementRetry)
    (hterm : (applyTaskOp op t).status.isTerminal = true) :
    (applyTaskOp op t).completed_at ≠ none := by
  cases op with
  | workerMarkProcessing now => simp [applyTaskOp, WTaskStatus.isTerminal] at hterm
  | workerMarkCompleted now => simp [applyTaskOp]
  | workerUpdateFailed msg now => simp [applyTaskOp]
  | apiSubmitQueued cid => simp [applyTaskOp, WTaskStatus.isTerminal] at hterm
  | apiSubmitQueueFailure msg => exact absurd rfl (hq msg)
  | modelMarkStarted now => simp [applyTaskOp, WTaskStatus.isTerminal] at hterm
  | modelMarkCompleted now => simp [applyTaskOp]
  | modelMarkFailed msg now => simp [applyTaskOp]
  | modelIncrementRetry => exact absurd rfl hr

/-- Witness for `C3_terminal_implies_completed_at`: the worker's completed
write on the fresh task. -/
theorem C3_witness :
    (∀ msg, TaskOp.workerMarkCompleted 5 ≠ TaskOp.apiSubmitQueueFailure msg) ∧
    TaskOp.workerMarkCompleted 5 ≠ TaskOp.modelIncrementRetry ∧
    (applyTaskOp (.workerMarkCompleted 5) task0).status.isTerminal = true ∧
    (applyTaskOp (.workerMarkCompleted 5) task0).completed_at ≠ none :=
  ⟨fun _ => by simp, by simp, by decide,
   C3_terminal_implies_completed_at task0 (.workerMarkCompleted 5)
     (fun _ => by simp) (by simp) (by decide)⟩

/-! ## C4: a PR with an empty changed-file list -/

/-- C4 counterexample: on the zero-file PR (canned responses), the persisted
classification (`PRAnalysis.summary`, written as
`str(summary.get("overall_quality"))`) is `"good"`, not `"fair"`: the default
mean of 75 satisfies the `avg_quality >= 75` branch of `generate_summary`. -/
theorem C4_counterexample :
    ((analyzePrTask db0 "t1" inpEmpty 0).1.prAnalyses.map (fun p => p.summary))
      = [some "good"] ∧ ("good" : String) ≠ "fair" := by
  constructor <;> decide

/-- The `PRAnalysis` row a zero-file run leaves behind: counters zero, quality
score defaulting to 75, classification `"good"`, the canned recommendation. -/
def emptyRunRow (prId : ℕ) (tid : String) (n : ℕ) : PRAnalysisRow :=
  { id := prId
    task_id := tid
    status := .completed
    total_files_analyzed := 0
    total_issues_found := 0
    critical_issues := 0
    quality_score := some 75
    summary := some "good"
    recommendations := ["Code looks good! Consider adding tests if not present"]
    analysis_completed_at := some n }

/-- C4 (amended): when the worker processes a PR whose changed-file list is
empty (canned LLM responses, summary generation succeeding), the Task ends
completed with `completed_at` set, and one `PRAnalysis` row is appended with
all counters zero, quality score defaulting to 75, overall-quality
classification `"good"` (75 meets the `>= 75` "good" threshold, not "fair"),
and recommendations exactly
`["Code looks good! Consider adding tests if not present"]`; no `FileAnalysis`
rows are written. -/
theorem C4_empty_pr_run (db : DB) (tid : String) (inp : WorkerInput) (n : ℕ)
    (hfetch : inp.fetch = .ok []) (hsum : inp.summaryFails = false)
    (hfresh : ∀ p ∈ db.prAnalyses, (p.id == db.nextPrId) = false) :
    (analyzePrTask db tid inp n).1.prAnalyses =
      db.prAnalyses ++ [emptyRunRow db.nextPrId tid n] ∧
    (analyzePrTask db tid inp n).1.fileAnalyses = db.fileAnalyses ∧
    (analyzePrTask db tid inp n).1.tasks =
      db.tasks.map (fun t => if t.id == tid then
        { t with status := .completed, started_at := some n, completed_at := some n }
        else t) := by
  refine ⟨?_, ?_, ?_⟩
  · simp only [analyzePrTask, analyzePrAsync, hfetch, hsum, updateTask, updatePr,
      updateTaskFailed, summary_empty_eval, List.filterMap_nil, List.map_nil,
      List.length_nil, List.sum_nil, List.map_append, if_false, Bool.false_eq_true,
      List.flatten_nil, List.filter_nil]
    rw [map_update_eq_self _ _ _ hfresh]
    simp [emptyRunRow]
  · simp only [analyzePrTask, analyzePrAsync, hfetch, hsum, updateTask, updatePr,
      updateTaskFailed, List.filterMap_nil, List.map_nil, List.append_nil]
  · simp only [analyzePrTask, analyzePrAsync, hfetch, hsum, updateTask, updatePr,
      updateTaskFailed, List.map_map]
    apply List.map_congr_left
    intro t _
    by_cases ht : t.id = tid <;> simp [ht]

/-- Witness for `C4_empty_pr_run` on the one-task store. -/
theorem C4_empty_pr_witness :
    inpEmpty.fetch = Except.ok [] ∧ inpEmpty.summaryFails = false ∧
    (analyzePrTask db0 "t1" inpEmpty 0).1.prAnalyses =
      db0.prAnalyses ++ [emptyRunRow db0.nextPrId "t1" 0] :=
  ⟨rfl, rfl,
   (C4_empty_pr_run db0 "t1" inpEmpty 0 rfl rfl (by intro p hp; simp [db0] at hp)).1⟩

/-! ## C6: `total_files_analyzed` vs persisted `FileAnalysis` rows -/

/-- C6 counterexample: a run over one changed file whose analysis throws ends
with the run's `PRAnalysis.total_files_analyzed = 1` (set to `len(files_data)`
at insertion and never updated) while zero `FileAnalysis` rows reference it. -/
theorem C6_counterexample :
    ((analyzePrTask db0 "t1" inpOneFail 0).1.prAnalyses.map
      (fun p => p.total_files_analyzed)) = [1] ∧
    ((analyzePrTask db0 "t1" inpOneFail 0).1.fileAnalyses.filter
      (fun fa => fa.pr_analysis_id == 1)).length = 0 ∧
    (1 : ℕ) ≠ 0 := by
  refine ⟨by decide, by decide, by decide⟩

/-- C6 (amended): after a completed run the `PRAnalysis` files-analyzed counter
equals the number of changed files fetched from the code host (`len(files_data)`),
while the `FileAnalysis` rows referencing that `PRAnalysis` are exactly the
files whose analysis succeeded; the two agree precisely when no per-file
analysis failed. -/
theorem C6_files_analyzed_counter (db : DB) (tid : String) (inp : WorkerInput)
    (files : List FileOutcome) (n : ℕ) (hfetch : inp.fetch = .ok files)
    (hfreshFa : ∀ fa ∈ db.fileAnalyses, (fa.pr_analysis_id == db.nextPrId) = false) :
    (analyzePrTask db tid inp n).1.prAnalyses.map
        (fun p => (p.id, p.total_files_analyzed)) =
      db.prAnalyses.map (fun p => (p.id, p.total_files_analyzed))
        ++ [(db.nextPrId, files.length)] ∧
    ((analyzePrTask db tid inp n).1.fileAnalyses.filter
        (fun fa => fa.pr_analysis_id == db.nextPrId)).length =
      (files.filterMap (fun f => f.result)).length ∧
    ((∀ f ∈ files, (f.result).isSome) →
      (files.filterMap (fun f => f.result)).length = files.length) := by
  refine ⟨?_, ?_, fun hall => filterMap_length_of_all_isSome files _ hall⟩
  · simp only [analyzePrTask, analyzePrAsync, hfetch, updateTask, updatePr,
      updateTaskFailed, List.map_append, List.map_map]
    congr 1
    · apply List.map_congr_left
      intro p _
      by_cases hp : p.id = db.nextPrId <;> simp [hp]
    · simp
  · rw [run_appends_file_rows db tid inp files hfetch n, List.filter_append]
    have hold : db.fileAnalyses.filter (fun fa => fa.pr_analysis_id == db.nextPrId) = [] := by
      rw [List.filter_eq_nil_iff]
      intro fa hfa
      simp [hfreshFa fa hfa]
    have hnew : ((files.filterMap (fun f => f.result)).map (fun fa =>
        ({ pr_analysis_id := db.nextPrId, file_path := fa.file_path,
           issues := fa.issues } : FileAnalysisRow))).filter
        (fun fa => fa.pr_analysis_id == db.nextPrId) =
        (files.filterMap (fun f => f.result)).map (fun fa =>
        ({ pr_analysis_id := db.nextPrId, file_path := fa.file_path,
           issues := fa.issues } : FileAnalysisRow)) := by
      rw [List.filter_eq_self]
      intro fa hfa
      rcases List.mem_map.mp hfa with ⟨x, _, rfl⟩
      simp
    rw [hold, hnew]
    simp

/-- Witness for `C6_files_analyzed_counter` on the one-failing-file run. -/
theorem C6_files_analyzed_witness :
    inpOneFail.fetch = Except.ok [{ filename := "a.py", result := none }] ∧
    ((analyzePrTask db0 "t1" inpOneFail 0).1.fileAnalyses.filter
        (fun fa => fa.pr_analysis_id == db0.nextPrId)).length =
      (([{ filename := "a.py", result := none }] : List FileOutcome).filterMap
        (fun f => f.result)).length :=
  ⟨rfl,
   (C6_files_analyzed_counter db0 "t1" inpOneFail
      [{ filename := "a.py", result := none }] 0 rfl
      (by intro fa hfa; simp [db0] at hfa)).2.1⟩

end ReviewCraft
